import Mathlib

/-!
Verification of the interactive map engine of the Disaster-Report-Map frontend
(`src/components/map/DisasterMap.tsx`), shallowly embedded in Lean.

Numbers that are IEEE doubles in the source are modelled as rationals (`ℚ`);
the claims under check depend on exact field-wise comparison, never on
floating-point rounding.  JavaScript runtime behaviour that the TypeScript
types do not rule out (a report whose `location` is missing at runtime, the
falsiness of `0` under `||`) is modelled explicitly where a claim is about it.
-/

namespace DisasterMap

/-- Modelled from the spec: `DisasterType` from `src/types` is not under `src/`.
The spec (§3) gives the category enum `{flood, fire, accident, collapse, ...}`;
these four are the categories the in-`src` legend component enumerates. -/
inductive DisasterType where
  | flood
  | fire
  | accident
  | collapse
  deriving DecidableEq, Repr

/-- Geographic coordinates in degrees (spec §3): immutable value type, equality
is exact field comparison. -/
structure Coordinates where
  lat : ℚ
  lng : ℚ
  deriving DecidableEq, Repr

/-- Modelled from the spec: `DisasterReport` from `src/types` is not under
`src/`.  Fields follow spec §3: `{ id, type, location, description, status,
imageUrl }`.  `location` is an `Option` so that a runtime-malformed report
(missing coordinates, spec §7) is representable even though the static
TypeScript type requires the field; a well-formed report has `location = some c`.
The status enum's constructors are unspecified, so statuses are strings. -/
structure DisasterReport where
  id : ℕ
  type : DisasterType
  location : Option Coordinates
  description : String
  status : String
  imageUrl : Option String
  deriving DecidableEq, Repr

/-- A point of the map's internal projected coordinate space (Web Mercator in
the real renderer). -/
structure MapCoord where
  x : ℚ
  y : ℚ
  deriving DecidableEq, Repr

/-- Model of OpenLayers `fromLonLat`.  The true Web Mercator `x` is the linear
rescaling below; the `y` formula is transcendental and is modelled by the same
linear rescaling, which is faithful for every claim under check: the claims use
the projection only as an invertible encoding of `(lng, lat)`, never its
numeric values. -/
def fromLonLat (lnglat : ℚ × ℚ) : MapCoord :=
  ⟨lnglat.1 * 111319.49079327358, lnglat.2 * 111319.49079327358⟩

/-- Model of OpenLayers `toLonLat`, the inverse projection. -/
def toLonLat (c : MapCoord) : ℚ × ℚ :=
  (c.x / 111319.49079327358, c.y / 111319.49079327358)

/-- The spec's `CoordinateAdapter.toMapSpace`: geographic coordinates into the
projected space, i.e. the `fromLonLat([lng, lat])` calls of `DisasterMap.tsx`. -/
def CoordinateAdapter.toMapSpace (c : Coordinates) : MapCoord :=
  fromLonLat (c.lng, c.lat)

/-- Modelled from the spec: `getDisasterEmoji` from `src/utils` is not under
`src/`.  Spec §4.5 calls it the popup's "category glyph"; the glyph strings are
the ones the in-`src` legend component pairs with each category.  No claim
depends on the concrete strings. -/
def getDisasterEmoji : DisasterType → String
  | .flood => "🌊"
  | .fire => "🔥"
  | .accident => "🚑"
  | .collapse => "🏚️"

/-- Modelled from the spec: `getDisasterDisplayName` from `src/utils` is not
under `src/`.  Spec §4.5: the popup heading shows the category's display name.
No claim depends on the concrete strings. -/
def getDisasterDisplayName : DisasterType → String
  | .flood => "Flood"
  | .fire => "Fire"
  | .accident => "Accident"
  | .collapse => "Collapse"

/-- Modelled from the spec: `getStatusColor` from `src/utils` is not under
`src/`.  Spec §4.5: the status badge carries a status-dependent style class.
No claim depends on the concrete strings. -/
def getStatusColor (status : String) : String :=
  "status-color-" ++ status

/-- A marker style, abstracting the inline SVG icons built by
`createDisasterIconStyle` and `createUserLocationStyle`
(`DisasterMap.tsx:28-71`): each is a pure function of the category
(resp. a constant), so the style is modelled by its defining data. -/
inductive FeatureStyle where
  | disasterIcon (t : DisasterType)
  | userLocationIcon
  deriving DecidableEq, Repr

/-- Feature geometry as the click handler distinguishes it
(`geometry instanceof Point`, `DisasterMap.tsx:177`): a point at a projected
coordinate, or any non-point geometry. -/
inductive Geometry where
  | point (c : MapCoord)
  | nonPoint
  deriving DecidableEq, Repr

/-- A vector-layer feature: geometry, style, and the two properties the click
handler reads (`reportData`, `isUserLocation`). -/
structure Feature where
  geom : Geometry
  style : Option FeatureStyle
  reportData : Option DisasterReport
  isUserLocation : Bool
  deriving DecidableEq, Repr

/-- The feature built for one report in the marker-sync pass
(`DisasterMap.tsx:275-280`): point geometry at
`fromLonLat([report.location.lng, report.location.lat])`, the category icon
style, and the report stored under `reportData`. -/
def mkReportFeature (loc : Coordinates) (r : DisasterReport) : Feature :=
  { geom := .point (fromLonLat (loc.lng, loc.lat))
    style := some (.disasterIcon r.type)
    reportData := some r
    isUserLocation := false }

/-- The single user-location feature (`DisasterMap.tsx:291-296`). -/
def mkUserLocationFeature (loc : Coordinates) : Feature :=
  { geom := .point (fromLonLat (loc.lng, loc.lat))
    style := some .userLocationIcon
    reportData := none
    isUserLocation := true }

/-- The body of the marker-sync pass (`DisasterMap.tsx:274-281`): a `forEach`
over the report list, building and adding one feature per report.  Reading
`report.location.lng` of a report whose `location` is missing at runtime throws
a `TypeError`, which aborts the `forEach` (and the effect) at that report; the
features added before the throw stay in the source.  Returns the features the
marker source holds after the pass and whether the pass aborted. -/
def syncMarkerFeatures : List DisasterReport → List Feature × Bool
  | [] => ([], false)
  | r :: rs =>
    match r.location with
    | none => ([], true)
    | some loc =>
      let rest := syncMarkerFeatures rs
      (mkReportFeature loc r :: rest.1, rest.2)

/-- The structured content of the popup DOM fragment built for a report
(`DisasterMap.tsx:204-217`): category glyph and display name, status badge
(class and text), description, coordinates shown to 4 decimals, optional
image.  Every field is the pure function of the report the template computes. -/
structure RenderedReportPopup where
  categoryGlyph : String
  categoryName : String
  statusBadgeClass : String
  statusText : String
  description : String
  coordsText : Option (ℚ × ℚ)
  imageUrl : Option String
  deriving DecidableEq, Repr

/-- JavaScript `toFixed(4)`, modelled as rounding to 4 decimal places. -/
def toFixed4 (q : ℚ) : ℚ :=
  (round (q * 10000) : ℤ) / 10000

/-- Render a report into the popup content (`DisasterMap.tsx:204-217`). -/
def renderReportPopup (r : DisasterReport) : RenderedReportPopup :=
  { categoryGlyph := getDisasterEmoji r.type
    categoryName := getDisasterDisplayName r.type
    statusBadgeClass := getStatusColor r.status
    statusText := r.status
    description := r.description
    coordsText := r.location.map (fun l => (toFixed4 l.lat, toFixed4 l.lng))
    imageUrl := r.imageUrl }

/-- What the popup overlay's element currently displays. -/
inductive PopupContent where
  | empty
  | reportDetail (html : RenderedReportPopup)
  | userLocationDetail (latText lngText : ℚ)
  deriving DecidableEq, Repr

/-- The mutable visual state the component owns: the two vector sources, the
popup overlay (element content and overlay position — position `none` is
OpenLayers' `setPosition(undefined)`, an invisible overlay), and the
previously-applied animation target (`previousCenterRef`). -/
structure MapState where
  markerFeatures : List Feature
  userLocationFeatures : List Feature
  popupContent : PopupContent
  popupPosition : Option MapCoord
  previousCenter : Option Coordinates
  deriving DecidableEq, Repr

/-- The marker-sync effect (`DisasterMap.tsx:269-282`): clear the marker
source, then rebuild it from the report list. -/
def runMarkerSync (reports : List DisasterReport) (s : MapState) : MapState :=
  { s with markerFeatures := (syncMarkerFeatures reports).1 }

/-- The user-location effect (`DisasterMap.tsx:285-298`): clear the
user-location source; add the single user feature when a location is given. -/
def runUserLocationSync (userLocation : Option Coordinates) (s : MapState) : MapState :=
  { s with
    userLocationFeatures :=
      match userLocation with
      | none => []
      | some loc => [mkUserLocationFeature loc] }

/-- The `singleclick` handler (`DisasterMap.tsx:172-259`).  `hit` is what
`forEachFeatureAtPixel` returned; `eventCoordinate` is `event.coordinate`;
`hasOnMapClick` is whether the optional `onMapClick` callback is registered.
Returns the new state and the list of `Coordinates` values `onMapClick` was
invoked with during this click. -/
def handleSingleClick (hasOnMapClick : Bool) (hit : Option Feature)
    (eventCoordinate : MapCoord) (s : MapState) : MapState × List Coordinates :=
  match hit with
  | some f =>
    match f.geom with
    | .point c =>
      match f.reportData with
      | some r =>
        ({ s with popupContent := .reportDetail (renderReportPopup r)
                  popupPosition := some c }, [])
      | none =>
        if f.isUserLocation then
          ({ s with popupContent :=
                      .userLocationDetail (toFixed4 (toLonLat c).2) (toFixed4 (toLonLat c).1)
                    popupPosition := some c }, [])
        else (s, [])
    | .nonPoint => (s, [])
  | none =>
    ({ s with popupPosition := none },
      if hasOnMapClick then
        [{ lng := (toLonLat eventCoordinate).1, lat := (toLonLat eventCoordinate).2 }]
      else [])

/-- The popup close button's click handler (`DisasterMap.tsx:195-199` and
`DisasterMap.tsx:231-235`): `popupOverlay.setPosition(undefined)`; the
element's content is not touched. -/
def closePopup (s : MapState) : MapState :=
  { s with popupPosition := none }

/-- A camera animation request (`view.animate`, `DisasterMap.tsx:316-320`). -/
structure CameraAnimation where
  center : MapCoord
  zoom : ℚ
  duration : ℕ
  deriving DecidableEq, Repr

/-- The view-animation effect (`DisasterMap.tsx:301-324`).  Inputs are the
props read by the effect and the previously applied target
(`previousCenterRef.current`); returns the new value of that ref and the
animation started, if any.  `center || selectedReport?.location || userLocation`
is a chain over object values, hence `Option` alternation; the zoom condition
parses as `(center || selectedReport) ? 15 : zoom`. -/
def runViewAnimator (center : Option Coordinates) (selectedReport : Option DisasterReport)
    (userLocation : Option Coordinates) (zoom : ℚ) (previousCenter : Option Coordinates) :
    Option Coordinates × Option CameraAnimation :=
  match center <|> selectedReport.bind DisasterReport.location <|> userLocation with
  | none => (previousCenter, none)
  | some targetCenter =>
    let changed : Bool :=
      match previousCenter with
      | none => true
      | some p => p.lat != targetCenter.lat || p.lng != targetCenter.lng
    if changed then
      let targetZoom : ℚ := if center.isSome || selectedReport.isSome then 15 else zoom
      (some targetCenter,
        some { center := fromLonLat (targetCenter.lng, targetCenter.lat)
               zoom := targetZoom
               duration := 1000 })
    else (previousCenter, none)

/-- JavaScript `v || d` on an optional number: `undefined` and `0` are falsy. -/
def jsOrNum (v : Option ℚ) (d : ℚ) : ℚ :=
  match v with
  | none => d
  | some x => if x = 0 then d else x

/-- The initial camera of the one-time map construction. -/
structure InitialView where
  center : MapCoord
  zoom : ℚ
  deriving DecidableEq, Repr

/-- The initial `View` (`DisasterMap.tsx:158-160`):
`center: fromLonLat([center?.lng || 3.3792, center?.lat || 6.5244])`, and the
`zoom` prop whose destructuring default is `13` (`DisasterMap.tsx:79`). -/
def initialView (center : Option Coordinates) (zoom : Option ℚ) : InitialView :=
  { center := fromLonLat (jsOrNum (center.map Coordinates.lng) 3.3792,
                          jsOrNum (center.map Coordinates.lat) 6.5244)
    zoom := zoom.getD 13 }

/-! ## Helper lemmas about the marker-sync pass -/

theorem syncMarkerFeatures_wf (R : List DisasterReport)
    (h : ∀ r ∈ R, (r.location).isSome) :
    (syncMarkerFeatures R).1.length = R.length ∧ (syncMarkerFeatures R).2 = false := by
  induction R with
  | nil => simp [syncMarkerFeatures]
  | cons a rs ih =>
    obtain ⟨loc, hloc⟩ := Option.isSome_iff_exists.mp (h a (List.mem_cons_self a rs))
    have hrs := ih (fun r hr => h r (List.mem_cons_of_mem a hr))
    simp [syncMarkerFeatures, hloc, hrs.1, hrs.2]

theorem mem_syncMarkerFeatures (R : List DisasterReport) (f : Feature)
    (hf : f ∈ (syncMarkerFeatures R).1) :
    ∃ r ∈ R, ∃ loc, r.location = some loc ∧ f = mkReportFeature loc r := by
  induction R with
  | nil => simp [syncMarkerFeatures] at hf
  | cons a rs ih =>
    cases hloc : a.location with
    | none => simp [syncMarkerFeatures, hloc] at hf
    | some loc =>
      simp only [syncMarkerFeatures, hloc, List.mem_cons] at hf
      rcases hf with h | h
      · exact ⟨a, List.mem_cons_self a rs, loc, hloc, h⟩
      · obtain ⟨r, hr, loc2, h2, h3⟩ := ih h
        exact ⟨r, List.mem_cons_of_mem a hr, loc2, h2, h3⟩

theorem countP_syncMarkerFeatures (R : List DisasterReport) (r : DisasterReport)
    (h : ∀ x ∈ R, (x.location).isSome) :
    (syncMarkerFeatures R).1.countP (fun f => decide (f.reportData = some r)) = R.count r := by
  induction R with
  | nil => simp [syncMarkerFeatures]
  | cons a rs ih =>
    obtain ⟨loc, hloc⟩ := Option.isSome_iff_exists.mp (h a (List.mem_cons_self a rs))
    have hrs := ih (fun x hx => h x (List.mem_cons_of_mem a hx))
    simp only [syncMarkerFeatures, hloc, List.countP_cons, List.count_cons, hrs,
      mkReportFeature]
    by_cases hais : a = r
    · subst hais; simp
    · simp [hais, Ne.symm hais]

/-- C1: after a marker synchronization pass on a report list `R` (well-formed,
with the spec's unique-id input contract), the marker layer holds exactly
`len(R)` features, and for each report `r` in `R` exactly one feature has point
geometry `CoordinateAdapter.toMapSpace(r.location)` together with `r` as its
data tag. -/
theorem marker_sync_mirrors_reports (R : List DisasterReport) (s : MapState)
    (hwf : ∀ r ∈ R, (r.location).isSome)
    (hid : (R.map DisasterReport.id).Nodup) :
    (runMarkerSync R s).markerFeatures.length = R.length ∧
    ∀ r ∈ R, ∀ loc, r.location = some loc →
      (runMarkerSync R s).markerFeatures.countP
        (fun f => decide (f.geom = Geometry.point (CoordinateAdapter.toMapSpace loc) ∧
                          f.reportData = some r)) = 1 := by
  have hnd : R.Nodup := List.Nodup.of_map DisasterReport.id hid
  refine ⟨(syncMarkerFeatures_wf R hwf).1, ?_⟩
  intro r hr loc hloc
  have hcongr :
      (syncMarkerFeatures R).1.countP
        (fun f => decide (f.geom = Geometry.point (CoordinateAdapter.toMapSpace loc) ∧
                          f.reportData = some r)) =
      (syncMarkerFeatures R).1.countP (fun f => decide (f.reportData = some r)) := by
    refine List.countP_congr ?_
    intro f hf
    obtain ⟨r2, hr2, loc2, hloc2, hfe⟩ := mem_syncMarkerFeatures R f hf
    subst hfe
    simp only [mkReportFeature, decide_eq_true_eq, Option.some.injEq]
    constructor
    · rintro ⟨-, h2⟩; exact h2
    · rintro h2
      subst h2
      have : loc2 = loc := by
        have := hloc2.symm.trans hloc
        exact Option.some.injEq loc2 loc ▸ this
      subst this
      exact ⟨rfl, rfl⟩
  have hcount : R.count r = 1 := List.count_eq_one_of_mem hnd hr
  calc (runMarkerSync R s).markerFeatures.countP
        (fun f => decide (f.geom = Geometry.point (CoordinateAdapter.toMapSpace loc) ∧
                          f.reportData = some r))
      = (syncMarkerFeatures R).1.countP (fun f => decide (f.reportData = some r)) := hcongr
    _ = R.count r := countP_syncMarkerFeatures R r hwf
    _ = 1 := hcount

/-! ## Concrete sample values used by witnesses and counterexamples -/

def sampleReport1 : DisasterReport :=
  { id := 1, type := .flood, location := some ⟨1, 2⟩, description := "flooded street",
    status := "reported", imageUrl := none }

def sampleReport2 : DisasterReport :=
  { id := 2, type := .fire, location := some ⟨3, 4⟩, description := "market fire",
    status := "verified", imageUrl := some "img.png" }

def malformedReport : DisasterReport :=
  { id := 3, type := .accident, location := none, description := "no coords",
    status := "reported", imageUrl := none }

def emptyState : MapState :=
  { markerFeatures := [], userLocationFeatures := [], popupContent := .empty,
    popupPosition := none, previousCenter := none }

def popupOpenState : MapState :=
  { markerFeatures := [], userLocationFeatures := [],
    popupContent := .reportDetail (renderReportPopup sampleReport1),
    popupPosition := some ⟨5, 6⟩, previousCenter := none }

def nonPointFeature : Feature :=
  { geom := .nonPoint, style := none, reportData := some sampleReport1,
    isUserLocation := false }

/-- Witness for C1 at a concrete two-report list. -/
theorem marker_sync_mirrors_reports_witness :
    (∀ r ∈ [sampleReport1, sampleReport2], (r.location).isSome) ∧
    (([sampleReport1, sampleReport2].map DisasterReport.id).Nodup) ∧
    ((runMarkerSync [sampleReport1, sampleReport2] emptyState).markerFeatures.length =
        [sampleReport1, sampleReport2].length ∧
      ∀ r ∈ [sampleReport1, sampleReport2], ∀ loc, r.location = some loc →
        (runMarkerSync [sampleReport1, sampleReport2] emptyState).markerFeatures.countP
          (fun f => decide (f.geom = Geometry.point (CoordinateAdapter.toMapSpace loc) ∧
                            f.reportData = some r)) = 1) :=
  ⟨by decide, by decide,
    marker_sync_mirrors_reports [sampleReport1, sampleReport2] emptyState
      (by decide) (by decide)⟩

/-- C2: on each run, the view animator computes
`target = explicitCenter ?? selectedReport.location ?? userLocation`; it does
nothing when the target is absent or equals the last-applied target field-wise
on lat and lng; otherwise it starts exactly one 1000 ms camera animation to the
target — at zoom 15 when an explicit center or a selected report is present,
at the caller-supplied default zoom otherwise — and records the target as the
new last-applied value. -/
theorem view_animator_contract (center : Option Coordinates)
    (selectedReport : Option DisasterReport) (userLocation : Option Coordinates)
    (zoom : ℚ) (prev : Option Coordinates) :
    ((center <|> selectedReport.bind DisasterReport.location <|> userLocation) = none →
      runViewAnimator center selectedReport userLocation zoom prev = (prev, none)) ∧
    (∀ t, (center <|> selectedReport.bind DisasterReport.location <|> userLocation) = some t →
      ((∃ p, prev = some p ∧ p.lat = t.lat ∧ p.lng = t.lng) →
        runViewAnimator center selectedReport userLocation zoom prev = (prev, none)) ∧
      ((∀ p, prev = some p → p.lat ≠ t.lat ∨ p.lng ≠ t.lng) →
        runViewAnimator center selectedReport userLocation zoom prev =
          (some t,
            some { center := CoordinateAdapter.toMapSpace t
                   zoom := if center.isSome || selectedReport.isSome then 15 else zoom
                   duration := 1000 }))) := by
  constructor
  · intro h
    simp [runViewAnimator, h]
  · intro t ht
    constructor
    · rintro ⟨p, hp, h1, h2⟩
      subst hp
      simp [runViewAnimator, ht, h1, h2]
    · intro hne
      cases prev with
      | none => simp [runViewAnimator, ht, CoordinateAdapter.toMapSpace]
      | some p =>
        have h : (p.lat != t.lat || p.lng != t.lng) = true := by
          rcases hne p rfl with h | h <;> simp [h]
        simp [runViewAnimator, ht, h, CoordinateAdapter.toMapSpace]

/-- Witness for C2: with no explicit center and no selected report, a fresh user
location starts one 1000 ms animation at the default zoom. -/
theorem view_animator_contract_witness :
    runViewAnimator none none (some ⟨6.5, 3.4⟩) 13 none =
      (some ⟨6.5, 3.4⟩,
        some { center := CoordinateAdapter.toMapSpace ⟨6.5, 3.4⟩
               zoom := 13
               duration := 1000 }) := by
  have h := ((view_animator_contract none none (some ⟨6.5, 3.4⟩) 13 none).2
    ⟨6.5, 3.4⟩ rfl).2 (fun p hp => Option.noConfusion hp)
  simpa using h

/-- C3: a click whose hit test returns a marker feature produced for a report
`r` shows the popup for `r` in the same click: the content is rendered from `r`
(including its category and status) and the overlay position is set to that
feature's coordinate; the external callback is not invoked. -/
theorem report_click_shows_report_popup (R : List DisasterReport) (f : Feature)
    (hasOnMapClick : Bool) (ec : MapCoord) (s : MapState)
    (hf : f ∈ (syncMarkerFeatures R).1) :
    ∃ r ∈ R, ∃ loc, r.location = some loc ∧
      handleSingleClick hasOnMapClick (some f) ec s =
        ({ s with popupContent := .reportDetail (renderReportPopup r)
                  popupPosition := some (CoordinateAdapter.toMapSpace loc) }, []) ∧
      (renderReportPopup r).statusText = r.status ∧
      (renderReportPopup r).categoryName = getDisasterDisplayName r.type ∧
      (renderReportPopup r).categoryGlyph = getDisasterEmoji r.type := by
  obtain ⟨r, hr, loc, hloc, hfe⟩ := mem_syncMarkerFeatures R f hf
  subst hfe
  exact ⟨r, hr, loc, hloc, rfl, rfl, rfl, rfl⟩

/-- Witness for C3 at the singleton report list. -/
theorem report_click_shows_report_popup_witness :
    ∃ r ∈ [sampleReport1], ∃ loc, r.location = some loc ∧
      handleSingleClick true (some (mkReportFeature ⟨1, 2⟩ sampleReport1)) ⟨0, 0⟩
          emptyState =
        ({ emptyState with
            popupContent := .reportDetail (renderReportPopup r)
            popupPosition := some (CoordinateAdapter.toMapSpace loc) }, []) ∧
      (renderReportPopup r).statusText = r.status ∧
      (renderReportPopup r).categoryName = getDisasterDisplayName r.type ∧
      (renderReportPopup r).categoryGlyph = getDisasterEmoji r.type :=
  report_click_shows_report_popup [sampleReport1] (mkReportFeature ⟨1, 2⟩ sampleReport1)
    true ⟨0, 0⟩ emptyState
    (by show _ ∈ [mkReportFeature ⟨1, 2⟩ sampleReport1]
        exact List.mem_cons_self _ _)

/-- C4: a click that hits no feature invokes the registered `onMapClick`
callback exactly once, with the geographic coordinates obtained by
inverse-projecting the clicked position, and removes the popup position (the
overlay becomes invisible) in the same click; with no callback registered, only
the popup is hidden. -/
theorem empty_click_invokes_callback_and_hides (ec : MapCoord) (s : MapState) :
    handleSingleClick true none ec s =
      ({ s with popupPosition := none },
        [{ lat := (toLonLat ec).2, lng := (toLonLat ec).1 }]) ∧
    handleSingleClick false none ec s = ({ s with popupPosition := none }, []) :=
  ⟨rfl, rfl⟩

/-- C5 counterexample: on the list `[malformedReport, sampleReport1]` the
marker pass aborts at the malformed report — the abort flag is set and the
well-formed `sampleReport1` gets no feature — contradicting "still produces one
feature for every well-formed report in the list (the pass is not aborted)". -/
theorem malformed_report_aborts_cex :
    (syncMarkerFeatures [malformedReport, sampleReport1]).2 = true ∧
    (runMarkerSync [malformedReport, sampleReport1] emptyState).markerFeatures = [] ∧
    ¬ ∃ f ∈ (runMarkerSync [malformedReport, sampleReport1] emptyState).markerFeatures,
        f.reportData = some sampleReport1 := by
  refine ⟨rfl, rfl, ?_⟩
  rintro ⟨f, hf, -⟩
  simp [runMarkerSync, syncMarkerFeatures, malformedReport] at hf

/-- C5 amended: a marker synchronization pass over a list containing a
malformed report (missing coordinates) aborts at the first malformed report:
every well-formed report before it still produces its feature (one per
report), while the malformed report and every report after it produce none. -/
theorem malformed_report_aborts_pass (R1 R2 : List DisasterReport)
    (rb : DisasterReport) (s : MapState)
    (h1 : ∀ r ∈ R1, (r.location).isSome) (hb : rb.location = none) :
    (runMarkerSync (R1 ++ rb :: R2) s).markerFeatures = (syncMarkerFeatures R1).1 ∧
    (syncMarkerFeatures (R1 ++ rb :: R2)).2 = true ∧
    (syncMarkerFeatures R1).1.length = R1.length := by
  have key : syncMarkerFeatures (R1 ++ rb :: R2) = ((syncMarkerFeatures R1).1, true) := by
    induction R1 with
    | nil => simp [syncMarkerFeatures, hb]
    | cons a rs ih =>
      obtain ⟨loc, hloc⟩ := Option.isSome_iff_exists.mp (h1 a (List.mem_cons_self a rs))
      have hrs := ih (fun r hr => h1 r (List.mem_cons_of_mem a hr))
      simp [syncMarkerFeatures, hloc, hrs]
  refine ⟨?_, ?_, (syncMarkerFeatures_wf R1 h1).1⟩
  · show (syncMarkerFeatures (R1 ++ rb :: R2)).1 = (syncMarkerFeatures R1).1
    rw [key]
  · rw [key]

/-- Witness for the amended C5 at a concrete list with the malformed report in
the middle. -/
theorem malformed_report_aborts_pass_witness :
    (∀ r ∈ [sampleReport1], (r.location).isSome) ∧
    malformedReport.location = none ∧
    ((runMarkerSync ([sampleReport1] ++ malformedReport :: [sampleReport2])
        emptyState).markerFeatures = (syncMarkerFeatures [sampleReport1]).1 ∧
      (syncMarkerFeatures ([sampleReport1] ++ malformedReport :: [sampleReport2])).2 = true ∧
      (syncMarkerFeatures [sampleReport1]).1.length = [sampleReport1].length) :=
  ⟨by decide, rfl,
    malformed_report_aborts_pass [sampleReport1] [sampleReport2] malformedReport
      emptyState (by decide) rfl⟩

/-- C6 counterexample: with a registered callback, a click whose hit test
returns a non-point feature leaves the state entirely unchanged — the popup
open at position `⟨5, 6⟩` is not hidden and `onMapClick` is not invoked —
contradicting "the no-feature branch applies". -/
theorem nonpoint_hit_cex :
    handleSingleClick true (some nonPointFeature) ⟨7, 8⟩ popupOpenState =
      (popupOpenState, []) ∧
    popupOpenState.popupPosition ≠ none :=
  ⟨rfl, by simp [popupOpenState]⟩

/-- C6 amended: a click whose hit test returns a feature with non-point
geometry is ignored entirely: the state is unchanged — in particular the popup
is not hidden — and `onMapClick` is not invoked, registered or not. -/
theorem nonpoint_hit_ignored (hasOnMapClick : Bool) (f : Feature) (ec : MapCoord)
    (s : MapState) (hg : f.geom = .nonPoint) :
    handleSingleClick hasOnMapClick (some f) ec s = (s, []) := by
  simp [handleSingleClick, hg]

/-- Witness for the amended C6 at the concrete non-point feature. -/
theorem nonpoint_hit_ignored_witness :
    handleSingleClick true (some nonPointFeature) ⟨0, 0⟩ emptyState =
      (emptyState, []) :=
  nonpoint_hit_ignored true nonPointFeature ⟨0, 0⟩ emptyState rfl

/-- C7 counterexample: hiding the popup (close-button handler, or a click that
misses all features) at a state whose popup shows report content removes the
position but leaves the displayed content in place — it is still the report
detail, not cleared — contradicting "clears the popup overlay's displayed
content". -/
theorem hide_keeps_content_cex :
    (closePopup popupOpenState).popupPosition = none ∧
    (closePopup popupOpenState).popupContent =
      .reportDetail (renderReportPopup sampleReport1) ∧
    (closePopup popupOpenState).popupContent ≠ .empty ∧
    (handleSingleClick false none ⟨0, 0⟩ popupOpenState).1.popupContent ≠ .empty :=
  ⟨rfl, rfl, by simp [closePopup, popupOpenState], by simp [handleSingleClick, popupOpenState]⟩

/-- C7 amended: the popup hide operation — the popup's explicit close action or
any click that misses all features — removes the overlay position, leaving the
overlay invisible, but does not clear the displayed content: the content is
only replaced by the next show. -/
theorem hide_removes_position_keeps_content (s : MapState) (hasOnMapClick : Bool)
    (ec : MapCoord) :
    (closePopup s).popupPosition = none ∧
    (closePopup s).popupContent = s.popupContent ∧
    (handleSingleClick hasOnMapClick none ec s).1.popupPosition = none ∧
    (handleSingleClick hasOnMapClick none ec s).1.popupContent = s.popupContent :=
  ⟨rfl, rfl, rfl, rfl⟩

/-- C8: after a user-location synchronization pass, the user-location layer
holds exactly one feature — at the projected user location and tagged as the
user — when the location is present, and zero features when it is absent. -/
theorem user_location_sync_exact (s : MapState) :
    (∀ loc, (runUserLocationSync (some loc) s).userLocationFeatures.length = 1 ∧
      ∀ f ∈ (runUserLocationSync (some loc) s).userLocationFeatures,
        f.geom = .point (CoordinateAdapter.toMapSpace loc) ∧ f.isUserLocation = true) ∧
    (runUserLocationSync none s).userLocationFeatures.length = 0 := by
  refine ⟨fun loc => ⟨rfl, ?_⟩, rfl⟩
  intro f hf
  simp only [runUserLocationSync, List.mem_singleton] at hf
  subst hf
  exact ⟨rfl, rfl⟩

/-- Witness for C8 at a concrete location and the empty state. -/
theorem user_location_sync_exact_witness :
    (runUserLocationSync (some ⟨6.5, 3.4⟩) emptyState).userLocationFeatures.length = 1 ∧
    (runUserLocationSync none emptyState).userLocationFeatures.length = 0 :=
  ⟨((user_location_sync_exact emptyState).1 ⟨6.5, 3.4⟩).1,
    (user_location_sync_exact emptyState).2⟩

/-- C9 counterexample: with the provided center `{lat := 6.5244, lng := 0}` (a
point on the prime meridian) the initial camera center is the projection of the
fallback longitude 3.3792 paired with the provided latitude — not the
projection of the provided center — because JavaScript `||` treats the
longitude `0` as absent. -/
theorem initial_view_zero_lng_cex :
    (initialView (some ⟨6.5244, 0⟩) none).center ≠
      CoordinateAdapter.toMapSpace ⟨6.5244, 0⟩ ∧
    (initialView (some ⟨6.5244, 0⟩) none).center = fromLonLat (3.3792, 6.5244) := by
  norm_num [initialView, jsOrNum, CoordinateAdapter.toMapSpace, fromLonLat,
    MapCoord.mk.injEq]

/-- C9 amended: the initial camera center equals the projection of the provided
center whenever both of its components are nonzero; a zero or absent component
falls back componentwise to the fixed fallback (lng 3.3792, lat 6.5244) — so an
absent center input yields the projected fallback coordinate; the initial zoom
is the provided zoom input, defaulting to 13. -/
theorem initial_view_amended (c : Coordinates) (z : ℚ) (cen : Option Coordinates)
    (hlat : c.lat ≠ 0) (hlng : c.lng ≠ 0) :
    (initialView (some c) (some z)).center = CoordinateAdapter.toMapSpace c ∧
    (initialView none (some z)).center = fromLonLat (3.3792, 6.5244) ∧
    (initialView (some c) none).center = CoordinateAdapter.toMapSpace c ∧
    (initialView cen (some z)).zoom = z ∧
    (initialView cen none).zoom = 13 := by
  refine ⟨?_, rfl, ?_, rfl, rfl⟩ <;>
    simp [initialView, jsOrNum, hlat, hlng, CoordinateAdapter.toMapSpace]

/-- Witness for the amended C9 at a concrete nonzero center. -/
theorem initial_view_amended_witness :
    ((1 : ℚ) ≠ 0 ∧ (2 : ℚ) ≠ 0) ∧
    ((initialView (some ⟨1, 2⟩) (some 5)).center = CoordinateAdapter.toMapSpace ⟨1, 2⟩ ∧
      (initialView none (some 5)).center = fromLonLat (3.3792, 6.5244) ∧
      (initialView (some ⟨1, 2⟩) none).center = CoordinateAdapter.toMapSpace ⟨1, 2⟩ ∧
      (initialView none (some 5)).zoom = 5 ∧
      (initialView none none).zoom = 13) :=
  ⟨⟨by decide, by decide⟩,
    initial_view_amended ⟨1, 2⟩ 5 none (by decide) (by decide)⟩

/-- C10: each synchronization pass mutates only its own layer: the marker pass
leaves the user-location features and the popup (content and position)
unchanged, and the user-location pass leaves the marker features and the popup
unchanged — so a popup left open for a report a later pass removes stays shown
with its old content. -/
theorem sync_passes_frame (R : List DisasterReport) (loc : Option Coordinates)
    (s : MapState) :
    ((runMarkerSync R s).userLocationFeatures = s.userLocationFeatures ∧
     (runMarkerSync R s).popupContent = s.popupContent ∧
     (runMarkerSync R s).popupPosition = s.popupPosition) ∧
    ((runUserLocationSync loc s).markerFeatures = s.markerFeatures ∧
     (runUserLocationSync loc s).popupContent = s.popupContent ∧
     (runUserLocationSync loc s).popupPosition = s.popupPosition) :=
  ⟨⟨rfl, rfl, rfl⟩, ⟨rfl, rfl, rfl⟩⟩

end DisasterMap
